import Mathlib

/-!
Shallow embedding of the baseExpress authentication/authorization pipeline:
the User model (src/models/User.ts), the auth middleware (src/middleware/auth.ts),
the auth controllers (src/controllers/auth.ts), the users router/controller
(src/routes/users.ts, src/controllers/users.ts), the error handler
(src/middleware/error.ts), the security configuration (src/config/security.ts)
and the server bootstrap (src/server.ts), together with theorems settling the
specification claims about them.

External collaborators (bcryptjs, jsonwebtoken, Mongoose queries) are modelled
by their documented behaviour at exactly the call sites the source uses; each
such model is flagged in its doc comment.
-/

namespace BaseExpress

/-- The role enumeration of the User schema: enum ['administrator', 'client', 'employee']. -/
inductive Role where
  | administrator
  | client
  | employee
deriving DecidableEq, Repr

/-- The string stored in the `role` path for each role value. -/
def roleString : Role → String
  | .administrator => "administrator"
  | .client => "client"
  | .employee => "employee"

/-- A persisted user document (src/types/index.ts UserDocument / the User schema).
`password` holds the stored bcrypt hash (schema path `password`, select: false). -/
structure User where
  id : String
  name : String
  username : String
  email : String
  role : Role
  password : String
  phone : Option String
  address : Option String
  createdAt : Nat
deriving DecidableEq, Repr

/-- JavaScript truthiness of an optional string value: `undefined` and the
empty string are falsy, every other string is truthy. -/
def jsTruthy : Option String → Bool
  | none => false
  | some s => s != ""

/-- Reading an optional string the way the source reads possibly-absent request
fields once a truthiness check passed (absent collapses to the empty string). -/
def jsStr : Option String → String
  | none => ""
  | some s => s

/-- JavaScript `String.prototype.split` with a single-character separator,
on a character list. -/
def splitOnChar (sep : Char) : List Char → List (List Char)
  | [] => [[]]
  | c :: cs =>
    match splitOnChar sep cs with
    | [] => if c == sep then [[], []] else [[c]]
    | r :: rs => if c == sep then [] :: r :: rs else (c :: r) :: rs

/-- JavaScript `s.split(sep)` for a one-character separator. -/
def jsSplit (s : String) (sep : Char) : List String :=
  (splitOnChar sep s.data).map (fun l => String.mk l)

/-- JavaScript `s.startsWith(p)`. -/
def jsStartsWith (s p : String) : Bool :=
  p.data.isPrefixOf s.data

/-- Whitespace trimming as applied by the Mongoose `trim: true` setter. -/
def mongooseTrim (s : String) : String :=
  String.mk (((s.data.dropWhile Char.isWhitespace).reverse.dropWhile Char.isWhitespace).reverse)

/-- Model of bcryptjs as used by the User model: `hash salt plain` is the digest
persisted by the pre-save hook, and `saltOf digest` recovers the salt a digest
embeds (a bcrypt digest carries its own salt).  The algebraic facts the claims
need about bcrypt (collision-freedom for a fixed salt, digests never being
fixed points) are taken as explicit hypotheses of the theorems that use them. -/
structure BcryptModel where
  hash : String → String → String
  saltOf : String → String

/-- Model of `bcrypt.compare(candidate, stored)`: re-hash the candidate with the
salt embedded in the stored digest and compare digests (bcrypt never decrypts). -/
def bcryptCompare (M : BcryptModel) (candidate stored : String) : Bool :=
  M.hash (M.saltOf stored) candidate == stored

/-- `UserSchema.methods.matchPassword`: compares the entered password against
the stored hash via `bcrypt.compare`. -/
def matchPassword (M : BcryptModel) (u : User) (enteredPassword : String) : Bool :=
  bcryptCompare M enteredPassword u.password

/-- The `UserSchema.pre('save')` hook: when the password path was modified, the
plaintext sitting in `password` is replaced by its salted bcrypt hash before
persistence; otherwise the document is saved unchanged. -/
def hashPasswordPreSave (M : BcryptModel) (salt : String) (u : User) (passwordModified : Bool) : User :=
  if passwordModified then { u with password := M.hash salt u.password } else u

/-- Process environment slice the pipeline reads.  `jwtExpire` is the parsed
timespan of `process.env.JWT_EXPIRE` in seconds (`none` when the variable is
unset), `jwtSecret` is `process.env.JWT_SECRET`, `port` is `process.env.PORT`. -/
structure Env where
  jwtSecret : Option String
  jwtExpire : Option Nat
  port : Option Nat
deriving DecidableEq, Repr

/-- The decoded payload of a token produced by `jwt.sign({ id }, secret,
{ expiresIn })`: subject id, issued-at instant, expiration instant. -/
structure Jwt where
  id : String
  iat : Nat
  exp : Option Nat
deriving DecidableEq, Repr

/-- The message of the Error thrown by `getSignedJwtToken` (and by `protect`)
when `process.env.JWT_SECRET` is undefined. -/
def jwtSecretMissingMsg : String := "JWT_SECRET is not defined in environment variables"

/-- The message of the Error thrown by jsonwebtoken's sign-option validation
when the `expiresIn` option is present but not a number or non-empty string,
which is what `{ expiresIn: process.env.JWT_EXPIRE }` passes when the
environment variable is unset. -/
def expiresInInvalidMsg : String :=
  "\"expiresIn\" should be a number of seconds or string representing a timespan"

/-- Model of `jwt.sign({ id }, secret, { expiresIn })` as called by the User
model: with a configured timespan the issued token carries
`exp = iat + expiresIn` (documented jsonwebtoken behaviour); with the option
value undefined, jsonwebtoken's option validation throws. -/
def jwtSign (id : String) (expiresIn : Option Nat) (now : Nat) : Except String Jwt :=
  match expiresIn with
  | none => .error expiresInInvalidMsg
  | some d => .ok { id := id, iat := now, exp := some (now + d) }

/-- `UserSchema.methods.getSignedJwtToken`: throws when `JWT_SECRET` is absent,
otherwise signs `{ id: this._id }` with `expiresIn: process.env.JWT_EXPIRE`.
Note the duration comes straight from the environment, not from
`SECURITY_CONFIG.JWT_EXPIRE`. -/
def getSignedJwtToken (env : Env) (now : Nat) (u : User) : Except String Jwt :=
  match env.jwtSecret with
  | none => .error jwtSecretMissingMsg
  | some _ => jwtSign u.id env.jwtExpire now

/-- Thirty days in seconds, the parse of the timespan string '30d'. -/
def thirtyDaysSeconds : Nat := 30 * 24 * 60 * 60

/-- `SECURITY_CONFIG.JWT_EXPIRE` from src/config/security.ts:
`process.env.JWT_EXPIRE || '30d'` (as a parsed timespan).  No other code in the
repository reads this constant. -/
def securityConfigJwtExpire (env : Env) : Nat :=
  env.jwtExpire.getD thirtyDaysSeconds

/-- A page reference inside the pagination object of the list endpoint. -/
structure PageRef where
  page : Nat
  limit : Nat
deriving DecidableEq, Repr

/-- The pagination object built by `getUsers`. -/
structure Pagination where
  next : Option PageRef
  prev : Option PageRef
deriving DecidableEq, Repr

/-- A user document as serialized into a response body.  `password` is `some`
exactly when the query projection selected the stored hash; the schema-level
`select: false` keeps it out otherwise. -/
structure SerializedUser where
  id : String
  name : String
  username : String
  email : String
  role : Role
  password : Option String
  phone : Option String
  address : Option String
  createdAt : Nat
deriving DecidableEq, Repr

/-- Serialization of a user document, keeping the stored `password` hash
exactly when the projection included it. -/
def serializeUser (includePassword : Bool) (u : User) : SerializedUser :=
  { id := u.id, name := u.name, username := u.username, email := u.email,
    role := u.role,
    password := if includePassword then some u.password else none,
    phone := u.phone, address := u.address, createdAt := u.createdAt }

/-- The JSON bodies the handlers and middleware of this slice produce. -/
inductive HttpBody where
  | msg (success : Bool) (message : String)
  | err (success : Bool) (error : String)
  | token (success : Bool) (token : Jwt)
  | userData (success : Bool) (data : Option SerializedUser)
  | usersList (success : Bool) (count : Nat) (pagination : Pagination)
      (totalPages : Nat) (currentPage : Nat) (data : List SerializedUser)
deriving DecidableEq, Repr

/-- An HTTP response: status code plus JSON body. -/
structure HttpResp where
  status : Nat
  body : HttpBody
deriving DecidableEq, Repr

/-- `User.findById`: look a user up by its id. -/
def findById (store : List User) (id : String) : Option User :=
  store.find? (fun u => u.id == id)

/-- The query object the login handler builds: `{ email }` or `{ username }`. -/
inductive FindQuery where
  | byEmail (e : String)
  | byUsername (n : String)
deriving DecidableEq, Repr

/-- Whether a document matches the login handler's `findOne` query. -/
def queryMatches (q : FindQuery) (u : User) : Bool :=
  match q with
  | .byEmail e => u.email == e
  | .byUsername n => u.username == n

/-- `User.findOne(query)` for the login handler's query shapes. -/
def findOne (store : List User) (q : FindQuery) : Option User :=
  store.find? (queryMatches q)

/-- Token extraction of `protect`: when the Authorization header is truthy and
starts with 'Bearer', take `header.split(' ')[1]`; afterwards the handler
rejects when the extracted value is JS-falsy (`if (!token)`), so an absent
index-1 entry and the empty string both collapse to `none` here. -/
def presentToken (authHeader : Option String) : Option String :=
  if jsTruthy authHeader && jsStartsWith (jsStr authHeader) "Bearer" then
    match (jsSplit (jsStr authHeader) ' ')[1]? with
    | none => none
    | some t => if t == "" then none else some t
  else none

/-- Abstract interface of `jwt.verify(token, secret)` at verification time
`now`: either the decoded subject id, or a failure (malformed token, bad
signature, expired token). -/
inductive JwtError where
  | malformed
  | badSignature
  | expired
deriving DecidableEq, Repr

/-- A JWT verifier: secret, token string and current time to decoded id or
verification failure.  `protect` is parametric in it; the claims about the
Authentication Gate hold for every verifier. -/
def JwtVerifier : Type :=
  String → String → Nat → Except JwtError String

/-- The outcome of the `protect` middleware: an HTTP rejection, or control
passed to the next middleware with the resolved user attached to the request. -/
inductive ProtectOutcome where
  | respond (status : Nat) (success : Bool) (message : String)
  | proceed (user : User)
deriving DecidableEq, Repr

/-- The generic rejection message of the Authentication Gate. -/
def notAuthorizedMsg : String := "Not authorized to access this route"

/-- The `protect` middleware (src/middleware/auth.ts).  Missing/falsy bearer
token rejects 401 with the generic message; the try-block covers the
`JWT_SECRET` presence check, `jwt.verify` and the user lookup, and every
exception inside it is caught and turned into the same generic 401; a verified
token whose subject no longer resolves rejects 401 'User not found'; otherwise
the resolved user is attached and `next()` runs. -/
def protect (verify : JwtVerifier) (env : Env) (store : List User) (now : Nat)
    (authHeader : Option String) : ProtectOutcome :=
  match presentToken authHeader with
  | none => .respond 401 false notAuthorizedMsg
  | some tok =>
    match env.jwtSecret with
    | none => .respond 401 false notAuthorizedMsg
    | some secret =>
      match verify secret tok now with
      | .error _ => .respond 401 false notAuthorizedMsg
      | .ok decodedId =>
        match findById store decodedId with
        | none => .respond 401 false "User not found"
        | some u => .proceed u

/-- The outcome of the `authorize` middleware: an HTTP rejection or `next()`. -/
inductive AuthzOutcome where
  | respond (status : Nat) (success : Bool) (message : String)
  | next
deriving DecidableEq, Repr

/-- The `authorize(...roles)` middleware (src/middleware/auth.ts): rejects 403
when no user is attached or the attached user's role is not in the allowed
list, naming the actual role in the message; otherwise `next()`. -/
def authorize (roles : List String) (user : Option User) : AuthzOutcome :=
  match user with
  | none => .respond 403 false "User role undefined is not authorized to access this route"
  | some u =>
    if roles.contains (roleString u.role) then .next
    else .respond 403 false
      ("User role " ++ roleString u.role ++ " is not authorized to access this route")

/-- The role list the users router passes to `authorize` for every route:
`router.use(authorize('administrator'))` in src/routes/users.ts. -/
def usersAllowedRoles : List String := ["administrator"]

/-- The five routes the users router registers. -/
inductive UsersRoute where
  | getAll
  | getOne
  | createOne
  | updateOne
  | deleteOne
deriving DecidableEq, Repr

/-- Dispatch of any `/api/v1/users/*` route: `router.use(protect)` then
`router.use(authorize('administrator'))` run before every handler, so the
handler (kept abstract) is reached only when both gates pass. -/
def dispatchUsersRoute (verify : JwtVerifier) (env : Env) (store : List User) (now : Nat)
    (authHeader : Option String) (r : UsersRoute)
    (handler : UsersRoute → User → HttpResp) : HttpResp :=
  match protect verify env store now authHeader with
  | .respond s ok m => ⟨s, .msg ok m⟩
  | .proceed u =>
    match authorize usersAllowedRoles (some u) with
    | .respond s ok m => ⟨s, .msg ok m⟩
    | .next => handler r u

/-- `sendTokenResponse` (src/controllers/auth.ts): signs a token for the user
and responds `{ success: true, token }` with the given status; when
`getSignedJwtToken` throws, the surrounding try/catch forwards the Error to the
error handler, whose fallback branch answers 500 with the Error's message. -/
def sendTokenResponse (env : Env) (now : Nat) (u : User) (statusCode : Nat) : HttpResp :=
  match getSignedJwtToken env now u with
  | .error e => ⟨500, .err false e⟩
  | .ok t => ⟨statusCode, .token true t⟩

/-- The body of a login request: `{ email, username, password }`, each possibly
absent. -/
structure LoginReq where
  email : Option String
  username : Option String
  password : Option String
deriving DecidableEq, Repr

/-- The login handler's credential presence check:
`if ((!email && !username) || !password)` rejects, so the request is valid when
an identifier and the password are truthy. -/
def loginValid (r : LoginReq) : Bool :=
  (jsTruthy r.email || jsTruthy r.username) && jsTruthy r.password

/-- The query `login` builds: `if (email) query.email = email; else if
(username) query.username = username` — a truthy email wins and the username
is then never consulted. -/
def loginQuery (r : LoginReq) : FindQuery :=
  if jsTruthy r.email then .byEmail (jsStr r.email) else .byUsername (jsStr r.username)

/-- The uniform 401 body login sends for an unknown identifier and for a
failed password check alike. -/
def invalidCredentials : HttpResp := ⟨401, .msg false "Invalid credentials"⟩

/-- The `login` handler (src/controllers/auth.ts): 400 when identifier or
password is missing; lookup via the built query (with `+password` selected so
the hash is available for comparison); unknown user and password mismatch both
answer the identical generic 401; a match issues a token with status 200. -/
def login (M : BcryptModel) (env : Env) (now : Nat) (store : List User) (r : LoginReq) : HttpResp :=
  if loginValid r then
    match findOne store (loginQuery r) with
    | none => invalidCredentials
    | some u =>
      if matchPassword M u (jsStr r.password) then sendTokenResponse env now u 200
      else invalidCredentials
  else ⟨400, .msg false "Please provide an email or username and password"⟩

/-- The `getMe` handler (src/controllers/auth.ts): 401 when no user is
attached; otherwise re-fetch by id and answer 200 with `data` set to whatever
the lookup returned — including `null` when the user no longer exists (the
handler performs no null check).  The re-fetched document is serialized without
the password (schema `select: false`). -/
def getMe (store : List User) (attachedUser : Option User) : HttpResp :=
  match attachedUser with
  | none => ⟨401, .msg false notAuthorizedMsg⟩
  | some u => ⟨200, .userData true ((findById store u.id).map (serializeUser false))⟩

/-- A small regular-expression syntax, enough to state the User schema's email
pattern exactly: empty language, empty word, single character satisfying a
predicate, alternation, concatenation, Kleene star. -/
inductive RE where
  | emp
  | eps
  | pred (p : Char → Bool)
  | alt (a b : RE)
  | cat (a b : RE)
  | star (a : RE)

/-- Whether a regular expression accepts the empty word. -/
def RE.nullable : RE → Bool
  | .emp => false
  | .eps => true
  | .pred _ => false
  | .alt a b => a.nullable || b.nullable
  | .cat a b => a.nullable && b.nullable
  | .star _ => true

/-- Brzozowski derivative of a regular expression by one character. -/
def RE.deriv : RE → Char → RE
  | .emp, _ => .emp
  | .eps, _ => .emp
  | .pred p, c => if p c then .eps else .emp
  | .alt a b, c => .alt (a.deriv c) (b.deriv c)
  | .cat a b, c =>
    if a.nullable then .alt (.cat (a.deriv c) b) (b.deriv c) else .cat (a.deriv c) b
  | .star a, c => .cat (a.deriv c) (.star a)

/-- Derivative-based matching of a whole character list (the pattern is
anchored at both ends, as the schema's `^...$` pattern is). -/
def RE.matchList (r : RE) : List Char → Bool
  | [] => r.nullable
  | c :: cs => (r.deriv c).matchList cs

/-- Anchored match of a whole string. -/
def RE.matchStr (r : RE) (s : String) : Bool :=
  r.matchList s.data

/-- `r?`. -/
def RE.opt (a : RE) : RE := .alt .eps a

/-- `r+`. -/
def RE.plus (a : RE) : RE := .cat a (.star a)

/-- JavaScript `\w`: ASCII letters, digits and underscore. -/
def wordChar (c : Char) : Bool :=
  (('a' ≤ c && c ≤ 'z') || ('A' ≤ c && c ≤ 'Z') || ('0' ≤ c && c ≤ '9') || c == '_')

/-- The User schema's email pattern
`/^\w+([\.-]?\w+)*@\w+([\.-]?\w+)*(\.\w{2,3})+$/`, translated piecewise:
`\w+` is `plus (pred wordChar)`, `[\.-]?` an optional dot-or-hyphen,
`\.\w{2,3}` a literal dot followed by two word characters and an optional
third. -/
def emailRegex : RE :=
  let wplus : RE := .plus (.pred wordChar)
  let dotDash : RE := .pred (fun c => c == '.' || c == '-')
  let wordRun : RE := .cat wplus (.star (.cat (RE.opt dotDash) wplus))
  let tld : RE := .cat (.pred (fun c => c == '.'))
    (.cat (.pred wordChar) (.cat (.pred wordChar) (RE.opt (.pred wordChar))))
  .cat wordRun (.cat (.pred (fun c => c == '@')) (.cat wordRun (.plus tld)))

/-- The attributes a registration or create request supplies for the User
schema (each possibly absent from the request body). -/
structure UserAttrs where
  name : Option String
  username : Option String
  email : Option String
  password : Option String
  role : Option String
  phone : Option String
  address : Option String
deriving Repr

/-- Mongoose's default enum-violation message for the `role` path. -/
def roleEnumMsg (v : String) : String :=
  "`" ++ v ++ "` is not a valid enum value for path `role`."

/-- Schema validation of the User model, with the schema's own messages:
`name` required, trimmed, at most 50 characters; `username` required, trimmed,
at most 30; `email` required and matching the email pattern; `role` one of the
three enum values when supplied; `password` required with at least 6
characters; `phone` at most 20; `address` at most 200.  Mongoose's string
`required` validator rejects absent values and the empty string; `trim` runs
before validation. -/
def validateUser (a : UserAttrs) : List String :=
  (match a.name with
   | none => ["Please add a name"]
   | some s =>
     let t := mongooseTrim s
     if t == "" then ["Please add a name"]
     else if t.length > 50 then ["Name cannot be more than 50 characters"] else []) ++
  (match a.username with
   | none => ["Please add a username"]
   | some s =>
     let t := mongooseTrim s
     if t == "" then ["Please add a username"]
     else if t.length > 30 then ["Username cannot be more than 30 characters"] else []) ++
  (match a.email with
   | none => ["Please add an email"]
   | some s =>
     if s == "" then ["Please add an email"]
     else if emailRegex.matchStr s then [] else ["Please add a valid email"]) ++
  (match a.role with
   | none => []
   | some v =>
     if v == "administrator" || v == "client" || v == "employee" then []
     else [roleEnumMsg v]) ++
  (match a.password with
   | none => ["Please add a password"]
   | some s =>
     if s == "" then ["Please add a password"]
     else if s.length < 6 then ["Password must be at least 6 characters"] else []) ++
  (match a.phone with
   | none => []
   | some s => if s.length > 20 then ["Phone number cannot be longer than 20 characters"] else []) ++
  (match a.address with
   | none => []
   | some s => if s.length > 200 then ["Address cannot be longer than 200 characters"] else [])

/-- The document built from validated attributes: trims applied, `role`
defaulting to client when absent, the password hashed by the pre-save hook,
`createdAt` defaulting to now. -/
def mkUser (M : BcryptModel) (salt newId : String) (now : Nat) (a : UserAttrs) : User :=
  { id := newId
    name := mongooseTrim (jsStr a.name)
    username := mongooseTrim (jsStr a.username)
    email := jsStr a.email
    role :=
      match a.role with
      | some "administrator" => .administrator
      | some "employee" => .employee
      | _ => .client
    password := (hashPasswordPreSave M salt
      { id := newId, name := "", username := "", email := "", role := .client,
        password := jsStr a.password, phone := none, address := none, createdAt := now }
      true).password
    phone := a.phone
    address := a.address
    createdAt := now }

/-- Failure modes of `User.create`: a Mongoose ValidationError carrying the
per-path messages, or the MongoDB duplicate-key error (code 11000) raised by
the unique indexes on `username` and `email`. -/
inductive CreateError where
  | validationError (messages : List String)
  | duplicateKey
deriving DecidableEq, Repr

/-- `User.create(attributes)`: schema validation runs first; the save then
hits the unique indexes, so any already-persisted document with the same
(exact, case-sensitive) username or email raises the duplicate-key error;
otherwise the hashed document is persisted. -/
def createUser (M : BcryptModel) (salt newId : String) (now : Nat)
    (store : List User) (a : UserAttrs) : Except CreateError User :=
  match validateUser a with
  | [] =>
    if store.any (fun u => u.username == mongooseTrim (jsStr a.username))
        || store.any (fun u => u.email == jsStr a.email) then
      .error .duplicateKey
    else .ok (mkUser M salt newId now a)
  | messages => .error (.validationError messages)

/-- The error shapes the error handler distinguishes
(src/middleware/error.ts): a Mongoose CastError, the duplicate-key code 11000,
a Mongoose ValidationError, or any other Error with optional status. -/
inductive AppError where
  | castError
  | duplicateKey
  | validationError (messages : List String)
  | generic (status : Option Nat) (message : String)
deriving DecidableEq, Repr

/-- The `errorHandler` middleware: CastError becomes 404 'Resource not found';
code 11000 becomes 400 'Duplicate field value entered'; ValidationError
becomes 400 with the per-path messages joined by ', '; anything else answers
`err.status || 500` with `err.message || 'Server Error'`. -/
def errorHandler : AppError → HttpResp
  | .castError => ⟨404, .err false "Resource not found"⟩
  | .duplicateKey => ⟨400, .err false "Duplicate field value entered"⟩
  | .validationError messages => ⟨400, .err false (String.intercalate ", " messages)⟩
  | .generic st m => ⟨st.getD 500, .err false (if m == "" then "Server Error" else m)⟩

/-- How a `User.create` failure reaches the error handler through the register
handler's `next(err)`. -/
def createErrorToAppError : CreateError → AppError
  | .validationError messages => .validationError messages
  | .duplicateKey => .duplicateKey

/-- The `register` handler (src/controllers/auth.ts): delegate to
`User.create`; failures go to the error handler via `next(err)`; success
issues a token with status 201. -/
def register (M : BcryptModel) (env : Env) (salt newId : String) (now : Nat)
    (store : List User) (a : UserAttrs) : HttpResp :=
  match createUser M salt newId now store a with
  | .error e => errorHandler (createErrorToAppError e)
  | .ok u => sendTokenResponse env now u 201

/-- The query string of a GET /api/v1/users request, already URL-decoded:
`filters` are the parameters outside page/limit/sort/fields, each turned into a
case-insensitive regex filter on the same-named field; `page` and `limit` are
the `parseInt` results (`none` for absent or non-numeric values, which `|| 1`
and `|| 10` treat like 0). -/
structure UsersQuery where
  filters : List (String × String)
  page : Option Nat
  limit : Option Nat
  sort : Option String
  fields : Option String
deriving Repr

/-- JavaScript `parseInt(x) || d` over our Nat model of the parse result:
absent/NaN and 0 both fall back to the default. -/
def jsOrDefault (n : Option Nat) (d : Nat) : Nat :=
  match n with
  | none => d
  | some 0 => d
  | some k => k

/-- Lower-casing for the `$options: 'i'` regex flag. -/
def lowerStr (s : String) : String :=
  String.mk (s.data.map Char.toLower)

/-- Whether the first character list occurs contiguously inside the second. -/
def hasSubstring : List Char → List Char → Bool
  | needle, [] => needle.isEmpty
  | needle, c :: cs => needle.isPrefixOf (c :: cs) || hasSubstring needle cs

/-- Case-insensitive containment, modelling `{ $regex: v, $options: 'i' }` for
pattern strings without regex metacharacters (the claims never involve
metacharacter patterns). -/
def containsCI (hay needle : String) : Bool :=
  hasSubstring (lowerStr needle).data (lowerStr hay).data

/-- The string value a filter parameter is matched against: MongoDB applies
`$regex` to string fields only, so a parameter naming anything else (or an
unknown field) matches no document. -/
def userFieldString (u : User) (k : String) : Option String :=
  if k == "name" then some u.name
  else if k == "username" then some u.username
  else if k == "email" then some u.email
  else if k == "role" then some (roleString u.role)
  else if k == "password" then some u.password
  else if k == "phone" then u.phone
  else if k == "address" then u.address
  else none

/-- Whether a document passes one `{ field: { $regex: v, $options: 'i' } }`
filter. -/
def filterMatches (u : User) (kv : String × String) : Bool :=
  match userFieldString u kv.1 with
  | none => false
  | some fv => containsCI fv kv.2

/-- The sort specification `getUsers` builds: split the `sort` parameter on
commas, a leading '-' meaning descending; default `{ name: 1 }` when the
parameter is falsy. -/
def parseSortKeys (sort : Option String) : List (String × Bool) :=
  if jsTruthy sort then
    (jsSplit (jsStr sort) ',').map
      (fun f => if jsStartsWith f "-" then (f.drop 1, false) else (f, true))
  else [("name", true)]

/-- Comparison of two documents on one sort key.  `createdAt` compares as a
number, every other sortable field as its string value. -/
def cmpByKey (k : String) (asc : Bool) (u v : User) : Ordering :=
  let o :=
    if k == "createdAt" then compare u.createdAt v.createdAt
    else compare ((userFieldString u k).getD "") ((userFieldString v k).getD "")
  if asc then o else o.swap

/-- Lexicographic comparison over the sort key list. -/
def cmpUsers (keys : List (String × Bool)) (u v : User) : Ordering :=
  match keys with
  | [] => .eq
  | (k, asc) :: rest =>
    match cmpByKey k asc u v with
    | .eq => cmpUsers rest u v
    | o => o

/-- Stable insertion of one element into a sorted list (equal keys keep their
relative order). -/
def insertSorted (le : User → User → Bool) (x : User) : List User → List User
  | [] => [x]
  | y :: ys => if le y x then y :: insertSorted le x ys else x :: y :: ys

/-- A stable sort of the matched documents by the sort keys. -/
def sortUsers (keys : List (String × Bool)) : List User → List User
  | [] => []
  | x :: xs => insertSorted (fun u v => cmpUsers keys u v != .gt) x (sortUsers keys xs)

/-- Whether the `fields` selection includes the `password` path.  The schema's
`select: false` keeps `password` out of every projection unless the request
names it: `.select('+password')` is Mongoose's documented override of a
schema-level deselection, and naming `password` in an inclusive projection
selects it likewise.  `getUsers` passes the client's comma-separated `fields`
parameter straight into `.select`. -/
def selectIncludesPassword (fields : Option String) : Bool :=
  if jsTruthy fields then
    let entries := jsSplit (jsStr fields) ','
    entries.contains "+password" || entries.contains "password"
  else false

/-- The `getUsers` handler (src/controllers/users.ts): every query parameter
outside page/limit/sort/fields becomes a case-insensitive regex filter; the
matched documents are counted, sorted, paginated with
`skip((page-1)*limit).limit(limit)`, projected via the client's `fields`
parameter, and answered 200 with count, pagination, `Math.ceil(total/limit)`
total pages, current page and the serialized page of documents. -/
def getUsers (store : List User) (q : UsersQuery) : HttpResp :=
  let matched := store.filter (fun u => q.filters.all (filterMatches u))
  let page := jsOrDefault q.page 1
  let limit := jsOrDefault q.limit 10
  let startIndex := (page - 1) * limit
  let endIndex := page * limit
  let total := matched.length
  let sorted := sortUsers (parseSortKeys q.sort) matched
  let pageUsers := (sorted.drop startIndex).take limit
  let pagination : Pagination :=
    { next := if endIndex < total then some ⟨page + 1, limit⟩ else none
      prev := if startIndex > 0 then some ⟨page - 1, limit⟩ else none }
  let includePw := selectIncludesPassword q.fields
  ⟨200, .usersList true pageUsers.length pagination ((total + limit - 1) / limit) page
    (pageUsers.map (serializeUser includePw))⟩

/-- Whether a response body carries the given stored password hash in any
serialized user it contains. -/
def bodyShowsPassword (b : HttpBody) (hash : String) : Bool :=
  match b with
  | .usersList _ _ _ _ _ data => data.any (fun su => su.password == some hash)
  | .userData _ data =>
    match data with
    | none => false
    | some su => su.password == some hash
  | _ => false

/-- The server bootstrap (src/server.ts): load the environment, connect the
database, mount middleware and routers, and listen on `process.env.PORT ||
5000`.  No step consults `JWT_SECRET`, so startup cannot fail on a missing
signing secret; the `Except` channel is where a fail-fast configuration check
would surface. -/
def serverStartup (env : Env) : Except String Nat :=
  .ok (env.port.getD 5000)

/-- Concrete fixture: an administrator on record. -/
def fxUserA : User :=
  ⟨"idA", "Alice", "alice1", "alice@x.com", .administrator, "HASHA", none, none, 100⟩

/-- Concrete fixture: a client on record. -/
def fxUserB : User :=
  ⟨"idB", "Bob", "bob1", "bob@x.com", .client, "HASHB", none, none, 101⟩

/-- Concrete fixture environment with secret and expiry configured. -/
def fxEnv : Env := ⟨some "sec", some 60, some 3000⟩

/-- Concrete fixture bcrypt model whose digests never equal the fixture users'
stored hashes, so every comparison against them fails. -/
def fxBcrypt : BcryptModel := ⟨fun _ _ => "DIGEST", fun _ => "salt"⟩

/-- Concrete fixture verifier that decodes a token string as the subject id. -/
def fxVerify : JwtVerifier := fun _ t _ => Except.ok t

/-- Concrete fixture route handler. -/
def fxHandler : UsersRoute → User → HttpResp := fun _ _ => ⟨200, .msg true "handled"⟩

/-- Concrete fixture store holding the two fixture users. -/
def fxStore : List User := [fxUserA, fxUserB]

/-- An idealized bcrypt instance for witnesses: digests prefix a marker
character, so hashing is injective and no string is its own digest. -/
def idealBcrypt : BcryptModel :=
  ⟨fun _ p => String.mk ('#' :: p.data), fun _ => "salt0"⟩

/-- C1: a request to a protected route whose Authorization header carries no
bearer token, or whose token fails verification (malformed, bad signature or
expired), is answered by `protect` with HTTP 401 and the single generic
message 'Not authorized to access this route' — the same response for every
such failure — and the outcome is a response, never `proceed`, so the
downstream handler is not invoked. -/
theorem protect_unauthenticated_rejects_401
    (verify : JwtVerifier) (env : Env) (store : List User) (now : Nat)
    (authHeader : Option String)
    (h : presentToken authHeader = none ∨
      ∃ t, presentToken authHeader = some t ∧
        ∀ s, env.jwtSecret = some s → ∃ e, verify s t now = Except.error e) :
    protect verify env store now authHeader =
      ProtectOutcome.respond 401 false notAuthorizedMsg := by
  rcases h with h | ⟨t, ht, hv⟩
  · simp [protect, h]
  · cases hs : env.jwtSecret with
    | none => simp [protect, ht, hs]
    | some s =>
      obtain ⟨e, he⟩ := hv s hs
      simp [protect, ht, hs, he]

/-- C1 witness: a concrete request whose token fails verification (expired)
receives the generic 401. -/
theorem protect_unauthenticated_rejects_401_witness :
    protect (fun _ _ _ => Except.error JwtError.expired) fxEnv [] 0
      (some "Bearer sometoken") = ProtectOutcome.respond 401 false notAuthorizedMsg :=
  protect_unauthenticated_rejects_401 _ _ _ _ _
    (Or.inr ⟨"sometoken", by decide, fun _ _ => ⟨JwtError.expired, rfl⟩⟩)

/-- C2: a login request with an unknown identifier and a login request with a
known identifier but failing password check receive the identical response,
HTTP 401 with body success false, message 'Invalid credentials', so the
response does not reveal whether the identifier exists. -/
theorem login_enumeration_safe
    (M : BcryptModel) (env : Env) (now : Nat) (store : List User)
    (r1 r2 : LoginReq) (u : User)
    (h1v : loginValid r1 = true)
    (h1q : findOne store (loginQuery r1) = none)
    (h2v : loginValid r2 = true)
    (h2q : findOne store (loginQuery r2) = some u)
    (h2p : matchPassword M u (jsStr r2.password) = false) :
    login M env now store r1 = login M env now store r2 ∧
      login M env now store r1 = ⟨401, HttpBody.msg false "Invalid credentials"⟩ := by
  have e1 : login M env now store r1 = invalidCredentials := by
    simp [login, h1v, h1q]
  have e2 : login M env now store r2 = invalidCredentials := by
    simp [login, h2v, h2q, h2p]
  exact ⟨e1.trans e2.symm, e1⟩

/-- C2 witness: against a store holding only Alice, logging in as a ghost
email and logging in as Alice with a wrong password produce the same 401
'Invalid credentials' body. -/
theorem login_enumeration_safe_witness :
    login fxBcrypt fxEnv 5 [fxUserA] ⟨some "ghost@x.com", none, some "pw"⟩ =
        login fxBcrypt fxEnv 5 [fxUserA] ⟨some "alice@x.com", none, some "wrong"⟩ ∧
      login fxBcrypt fxEnv 5 [fxUserA] ⟨some "ghost@x.com", none, some "pw"⟩ =
        ⟨401, HttpBody.msg false "Invalid credentials"⟩ :=
  login_enumeration_safe fxBcrypt fxEnv 5 [fxUserA]
    ⟨some "ghost@x.com", none, some "pw"⟩ ⟨some "alice@x.com", none, some "wrong"⟩
    fxUserA (by decide) (by decide) (by decide) (by decide) (by decide)

/-- C10: when `getMe` runs with an attached user whose id no longer resolves
in the store, it responds HTTP 200 with success true and data null, not an
error status. -/
theorem getMe_deleted_user_200_null
    (store : List User) (u : User)
    (h : findById store u.id = none) :
    getMe store (some u) = ⟨200, HttpBody.userData true none⟩ := by
  simp [getMe, h]

/-- C10 witness: an attached user over an empty store gets 200 with data
null. -/
theorem getMe_deleted_user_200_null_witness :
    getMe [] (some fxUserA) = ⟨200, HttpBody.userData true none⟩ :=
  getMe_deleted_user_200_null [] fxUserA (by decide)

/-- C3: on every /api/v1/users/* route, an authenticated identity (one the
Authentication Gate resolved and attached) whose role is not administrator is
rejected with HTTP 403 and a message naming that actual role, and an
authenticated administrator is admitted to the route's handler. -/
theorem usersRoutes_require_administrator
    (verify : JwtVerifier) (env : Env) (store : List User) (now : Nat)
    (authHeader : Option String) (r : UsersRoute)
    (handler : UsersRoute → User → HttpResp) (u : User)
    (hp : protect verify env store now authHeader = ProtectOutcome.proceed u) :
    (u.role ≠ Role.administrator →
      dispatchUsersRoute verify env store now authHeader r handler =
        ⟨403, HttpBody.msg false
          ("User role " ++ roleString u.role ++ " is not authorized to access this route")⟩) ∧
    (u.role = Role.administrator →
      dispatchUsersRoute verify env store now authHeader r handler = handler r u) := by
  unfold dispatchUsersRoute
  rw [hp]
  constructor
  · intro hne
    cases hr : u.role with
    | administrator => exact absurd hr hne
    | client => simp [authorize, usersAllowedRoles, roleString, hr]
    | employee => simp [authorize, usersAllowedRoles, roleString, hr]
  · intro he
    simp [authorize, usersAllowedRoles, he, roleString]

/-- C3 witness: on the users routes, the authenticated client Bob is rejected
with 403 naming his role, and the authenticated administrator Alice reaches
the handler. -/
theorem usersRoutes_require_administrator_witness :
    dispatchUsersRoute fxVerify fxEnv fxStore 0 (some "Bearer idB") UsersRoute.getAll fxHandler =
        ⟨403, HttpBody.msg false
          ("User role " ++ roleString fxUserB.role ++ " is not authorized to access this route")⟩ ∧
      dispatchUsersRoute fxVerify fxEnv fxStore 0 (some "Bearer idA") UsersRoute.createOne fxHandler =
        fxHandler UsersRoute.createOne fxUserA :=
  ⟨(usersRoutes_require_administrator fxVerify fxEnv fxStore 0 (some "Bearer idB")
      UsersRoute.getAll fxHandler fxUserB (by decide)).1 (by decide),
   (usersRoutes_require_administrator fxVerify fxEnv fxStore 0 (some "Bearer idA")
      UsersRoute.createOne fxHandler fxUserA (by decide)).2 rfl⟩

/-- Concrete fixture for the password-leak evaluation: a stored bcrypt hash
and a user record carrying it. -/
def fxHash : String := "$2a$10$storedBcryptHashValue"

/-- Concrete fixture user whose stored password hash is `fxHash`. -/
def fxLeakUser : User := ⟨"idL", "Carol", "carol1", "carol@x.com", .client, fxHash, none, none, 100⟩

/-- C4 (code bug): GET /api/v1/users with the query `fields=%2Bpassword`
(decoded `+password`) passes `+password` into the Mongoose projection, which
overrides the schema's `select: false`, so the 200 response serializes every
listed user's stored bcrypt password hash — contradicting the requirement
that the hash is never serialized in API responses. -/
theorem getUsers_plus_password_leaks_hash :
    getUsers [fxLeakUser] ⟨[], none, none, none, some "+password"⟩ =
      ⟨200, HttpBody.usersList true 1 ⟨none, none⟩ 1 1 [serializeUser true fxLeakUser]⟩ ∧
    bodyShowsPassword
      (getUsers [fxLeakUser] ⟨[], none, none, none, some "+password"⟩).body fxHash = true := by
  exact ⟨by decide, by decide⟩

/-- Concrete fixture environment with the signing secret set but
`JWT_EXPIRE` unset. -/
def fxEnvNoExpire : Env := ⟨some "sec", none, none⟩

/-- Concrete fixture environment with the signing secret set and a thirty-day
expiry configured. -/
def fxEnvWithExpire : Env := ⟨some "sec", some thirtyDaysSeconds, none⟩

/-- C5 (code bug): `getSignedJwtToken` reads `process.env.JWT_EXPIRE`
directly, so with the variable unset, token issuance fails on jsonwebtoken's
option validation instead of defaulting to 30 days; the '30d' default exists
only in `SECURITY_CONFIG.JWT_EXPIRE`, which the signing path never reads.
When a duration is configured, the issued token's expiration is its issuance
time plus that duration, as the claim's first half states. -/
theorem getSignedJwtToken_missing_expire_no_default :
    getSignedJwtToken fxEnvNoExpire 1700000000 fxUserA = Except.error expiresInInvalidMsg ∧
    securityConfigJwtExpire fxEnvNoExpire = thirtyDaysSeconds ∧
    getSignedJwtToken fxEnvWithExpire 1700000000 fxUserA =
      Except.ok ⟨fxUserA.id, 1700000000, some (1700000000 + thirtyDaysSeconds)⟩ :=
  ⟨rfl, rfl, rfl⟩

/-- C6 counterexample: with the signing secret absent from the environment,
the server bootstrap still starts and listens on the default port — it does
not fail fast at startup, because no startup step consults `JWT_SECRET`. -/
theorem serverStartup_ignores_missing_secret :
    serverStartup ⟨none, none, none⟩ = Except.ok 5000 := rfl

/-- C6 (amended): when the signing secret is absent, startup nevertheless
succeeds and the process serves requests; the failure surfaces only at
request time — token issuance errors with the JWT_SECRET message (mapped to a
500 by the error handler) and the Authentication Gate answers bearer requests
with the generic 401. -/
theorem missing_secret_fails_at_request_time
    (verify : JwtVerifier) (env : Env) (store : List User) (now : Nat)
    (u : User) (authHeader : Option String) (t : String)
    (hs : env.jwtSecret = none) (ht : presentToken authHeader = some t) :
    serverStartup env = Except.ok (env.port.getD 5000) ∧
      getSignedJwtToken env now u = Except.error jwtSecretMissingMsg ∧
      protect verify env store now authHeader =
        ProtectOutcome.respond 401 false notAuthorizedMsg := by
  refine ⟨rfl, ?_, ?_⟩
  · simp [getSignedJwtToken, hs]
  · simp [protect, ht, hs]

/-- C6 witness: a concrete secretless environment starts on its configured
port while issuance and verification fail per request. -/
theorem missing_secret_fails_at_request_time_witness :
    serverStartup ⟨none, none, some 4000⟩ = Except.ok 4000 ∧
      getSignedJwtToken ⟨none, none, some 4000⟩ 0 fxUserA = Except.error jwtSecretMissingMsg ∧
      protect fxVerify ⟨none, none, some 4000⟩ [] 0 (some "Bearer x") =
        ProtectOutcome.respond 401 false notAuthorizedMsg :=
  missing_secret_fails_at_request_time fxVerify ⟨none, none, some 4000⟩ [] 0 fxUserA
    (some "Bearer x") "x" rfl (by decide)

/-- C7: for an identity whose password was set from plaintext `plain` at its
last save (the pre-save hook hashed it with salt `s0`), `matchPassword`
accepts a candidate exactly when it equals that plaintext, and in particular
rejects the stored hash itself.  The hypotheses are the ideal-hash facts about
bcrypt the claim presupposes: a digest embeds its salt, hashing with a fixed
salt is collision-free, and no string is its own digest; verification only
re-hashes and compares — the model has no decryption operation at all. -/
theorem matchPassword_iff_entered_plaintext
    (M : BcryptModel) (s0 plain : String) (u : User) (p : String)
    (hsalt : M.saltOf (M.hash s0 plain) = s0)
    (hinj : ∀ a b : String, M.hash s0 a = M.hash s0 b → a = b)
    (hnofix : ∀ a : String, M.hash s0 a ≠ a) :
    (matchPassword M (hashPasswordPreSave M s0 { u with password := plain } true) p = true ↔
        p = plain) ∧
      matchPassword M (hashPasswordPreSave M s0 { u with password := plain } true)
        ((hashPasswordPreSave M s0 { u with password := plain } true).password) = false := by
  have hsaved : (hashPasswordPreSave M s0 { u with password := plain } true).password =
      M.hash s0 plain := rfl
  constructor
  · simp only [matchPassword, bcryptCompare, hsaved, hsalt, beq_iff_eq]
    exact ⟨fun h => hinj p plain h, fun h => by rw [h]⟩
  · simp only [matchPassword, bcryptCompare, hsaved, hsalt, beq_eq_false_iff_ne]
    exact hnofix (M.hash s0 plain)

/-- C7 witness: under the ideal bcrypt instance, the saved identity accepts
exactly its original plaintext and rejects its own stored digest. -/
theorem matchPassword_iff_entered_plaintext_witness :
    (matchPassword idealBcrypt
        (hashPasswordPreSave idealBcrypt "salt0" { fxUserA with password := "hunter2" } true)
        "hunter2" = true ↔ "hunter2" = "hunter2") ∧
      matchPassword idealBcrypt
        (hashPasswordPreSave idealBcrypt "salt0" { fxUserA with password := "hunter2" } true)
        ((hashPasswordPreSave idealBcrypt "salt0"
          { fxUserA with password := "hunter2" } true).password) = false :=
  matchPassword_iff_entered_plaintext idealBcrypt "salt0" "hunter2" fxUserA "hunter2"
    rfl
    (fun a b h => by
      have h2 : '#' :: a.data = '#' :: b.data := congrArg String.data h
      have h3 : a.data = b.data := by injection h2
      cases a
      cases b
      exact congrArg String.mk h3)
    (fun a h => by
      have h2 : '#' :: a.data = a.data := congrArg String.data h
      have h3 := congrArg List.length h2
      simp at h3)

/-- C8: registering attributes that pass schema validation but whose username
exactly equals (case-sensitively) the username of an already-persisted
identity fails on the unique index with the duplicate-key error, which the
error handler maps to HTTP 400 — even when the request's email differs from
every persisted email. -/
theorem register_duplicate_username_rejected_400
    (M : BcryptModel) (env : Env) (salt newId : String) (now : Nat)
    (store : List User) (a : UserAttrs) (w : User)
    (hmem : w ∈ store)
    (hname : w.username = mongooseTrim (jsStr a.username))
    (hvalid : validateUser a = [])
    (_hemail : ∀ v ∈ store, v.email ≠ jsStr a.email) :
    register M env salt newId now store a =
      ⟨400, HttpBody.err false "Duplicate field value entered"⟩ := by
  have hdup : store.any (fun u => u.username == mongooseTrim (jsStr a.username)) = true :=
    List.any_eq_true.mpr ⟨w, hmem, by simp [hname]⟩
  simp [register, createUser, hvalid, hdup, errorHandler, createErrorToAppError]

/-- C8 witness: against a store holding Alice (username alice1), a well-formed
registration reusing alice1 with a fresh email is rejected 400 with the
duplicate-key message. -/
theorem register_duplicate_username_rejected_400_witness :
    register fxBcrypt fxEnv "salt" "idNew" 7 [fxUserA]
        ⟨some "Ann", some "alice1", some "ann@y.com", some "secret1", none, none, none⟩ =
      ⟨400, HttpBody.err false "Duplicate field value entered"⟩ :=
  register_duplicate_username_rejected_400 fxBcrypt fxEnv "salt" "idNew" 7 [fxUserA]
    ⟨some "Ann", some "alice1", some "ann@y.com", some "secret1", none, none, none⟩
    fxUserA (by decide) (by decide) (by decide) (by decide)

/-- C9: when a login request supplies a truthy email, the lookup query is
built from the email alone, and the whole login response equals that of the
same request with the username removed — the supplied username is ignored, so
a request carrying A's email and B's username authenticates against A's
credentials. -/
theorem login_email_precedence
    (M : BcryptModel) (env : Env) (now : Nat) (store : List User) (r : LoginReq)
    (he : jsTruthy r.email = true) :
    loginQuery r = FindQuery.byEmail (jsStr r.email) ∧
      login M env now store r = login M env now store ⟨r.email, none, r.password⟩ := by
  constructor
  · simp [loginQuery, he]
  · simp [login, loginValid, loginQuery, he]

/-- C9 witness: a request with Alice's email and Bob's username behaves
exactly like the username-free request with Alice's email. -/
theorem login_email_precedence_witness :
    loginQuery ⟨some "alice@x.com", some "bob1", some "pw"⟩ =
        FindQuery.byEmail (jsStr (some "alice@x.com")) ∧
      login fxBcrypt fxEnv 5 fxStore ⟨some "alice@x.com", some "bob1", some "pw"⟩ =
        login fxBcrypt fxEnv 5 fxStore ⟨some "alice@x.com", none, some "pw"⟩ :=
  login_email_precedence fxBcrypt fxEnv 5 fxStore
    ⟨some "alice@x.com", some "bob1", some "pw"⟩ (by decide)

end BaseExpress
